import Mathlib

/-!
Verification development for the aggregation logic of the WeRoad quality
dashboard (src/src/App.tsx). The data model and the aggregation functions
below are shallow embeddings of the TypeScript source: machine numbers are
modelled as rationals, JavaScript objects used as counters are modelled as
association lists whose key order matches JavaScript insertion order, and
the stable Array.prototype.sort with a numeric comparator is modelled as a
stable insertion sort on a numeric key.
-/

set_option linter.unusedVariables false

/-! ## Data model (types of src/src/App.tsx, lines 5-100) -/

inductive ProductLine
  | WR
  | WRX
deriving DecidableEq

inductive Severity
  | LOW
  | MEDIUM
  | HIGH
deriving DecidableEq

structure Destination where
  id : String
  name : String
  country : String
deriving DecidableEq

structure Itinerary where
  id : String
  name : String
  destinationId : String
deriving DecidableEq

/-- Tour of the source, with dates modelled as day indices since the data
epoch (2024-11-01) instead of ISO strings. -/
structure Tour where
  id : String
  itineraryId : String
  startDate : Nat
  endDate : Nat
  productLine : ProductLine
  dmcName : String
  coordinatorName : String
deriving DecidableEq

structure Scores where
  overall : ℚ
  qp : ℚ
  accommodation : ℚ
  logistics : ℚ
  preDepartureInfo : ℚ
  coordinatorCourtesy : ℚ
  coordinatorLeadership : ℚ
  coordinatorOrganisation : ℚ
deriving DecidableEq

structure Comments where
  general : String
  accommodationBad : String
  logistics : String
  coordinator : String
deriving DecidableEq

structure SurveyResponse where
  id : String
  tourId : String
  createdAt : Nat
  scores : Scores
  comments : Comments
  domain : String
deriving DecidableEq

structure AnnTags where
  productTags : List String
  coordinatorTags : List String
deriving DecidableEq

structure Annotation where
  responseId : String
  tags : AnnTags
  severity : Severity
  confidence : ℚ
  evidenceSnippets : List String
deriving DecidableEq

inductive ActionType
  | DMC_CHANGE
  | COORDINATOR_TRAINING
  | ITINERARY_ADJUSTMENT
  | ACCOMMODATION_UPGRADE
  | SUPPLIER_REVIEW
  | PROCESS_IMPROVEMENT
deriving DecidableEq

inductive ActionPriority
  | LOW
  | MEDIUM
  | HIGH
  | CRITICAL
deriving DecidableEq

inductive ActionStatus
  | SUGGESTED
  | PLANNED
  | IN_PROGRESS
  | COMPLETED
  | CANCELLED
deriving DecidableEq

structure SuggestedAction where
  id : String
  destinationId : String
  itineraryId : Option String
  issueTag : String
  actionType : ActionType
  description : String
  priority : ActionPriority
  status : ActionStatus
  createdAt : String
  dueDate : String
  owner : String
  affectedTours : Nat
deriving DecidableEq

/-- The six impact metrics of a corrective action; tour counts are parsed
with parseInt in the source, therefore integers. -/
structure ImpactMetrics where
  avgScoreBefore : ℚ
  avgScoreAfter : ℚ
  pctBelow8Before : ℚ
  pctBelow8After : ℚ
  toursBeforeAction : Int
  toursAfterAction : Int
deriving DecidableEq

structure CorrectiveAction where
  id : String
  suggestedActionId : Option String
  destinationId : String
  itineraryId : Option String
  issueTag : String
  actionTaken : String
  implementedAt : String
  owner : String
  notes : String
  impactMetrics : ImpactMetrics
deriving DecidableEq

/-! ## Issue aggregation (lines 570-607, 595-605, 1190-1200)

A JavaScript object used as a counter is an association list with unique
keys; indexing a fresh key appends it, so key order is first-insertion
order, which is what Object.entries later returns. -/

/-- JavaScript issuesCount[tag] = (issuesCount[tag] || 0) + 1 on an object
with unique keys: bump the first matching key, or append the key with
count 1 (lines 574-576). -/
def bumpCount : List (String × Nat) → String → List (String × Nat)
  | [], tag => [(tag, 1)]
  | (k, n) :: rest, tag =>
    if k = tag then (k, n + 1) :: rest else (k, n) :: bumpCount rest tag

/-- annotations.find(a => a.responseId === r.id) (line 572): the first
annotation of the list whose responseId matches. -/
def annotFor (anns : List Annotation) (r : SurveyResponse) : Option Annotation :=
  match anns with
  | [] => none
  | a :: rest => if a.responseId == r.id then some a else annotFor rest r

/-- The tag list one response contributes: the concatenation
[...ann.tags.productTags, ...ann.tags.coordinatorTags] when the response
has an annotation, empty otherwise (lines 573-574). -/
def annTagList (anns : List Annotation) (r : SurveyResponse) : List String :=
  match annotFor anns r with
  | some a => a.tags.productTags ++ a.tags.coordinatorTags
  | none => []

/-- issuesCount of the OverviewPage (lines 570-578): per-tag occurrence
counts over a response subset. -/
def issuesCountOf (rs : List SurveyResponse) (anns : List Annotation) :
    List (String × Nat) :=
  rs.foldl (fun m r => (annTagList anns r).foldl bumpCount m) []

/-- JavaScript object lookup issuesCount[tag] || 0 on a unique-keyed
counter object. -/
def getCount : List (String × Nat) → String → Nat
  | [], _ => 0
  | (k, n) :: rest, t => if k = t then n else getCount rest t

/-- Sum of all per-tag occurrence counts of a counter object. -/
def totalCount (m : List (String × Nat)) : Nat :=
  (m.map Prod.snd).sum

/-- Number of occurrences of a tag in a tag list. -/
def occ (t : String) : List String → Nat
  | [] => 0
  | s :: rest => (if s = t then 1 else 0) + occ t rest

/-- Number of responses of a subset that have an annotation. -/
def annotatedCount (rs : List SurveyResponse) (anns : List Annotation) : Nat :=
  (rs.filter (fun r => (annotFor anns r).isSome)).length

/-- Per-tag cell of the severity-aware counters destIssues (lines 595-605)
and issuesCount of the DestinationPage (lines 1190-1200). -/
structure IssueCell where
  count : Nat
  low : Nat
  med : Nat
  high : Nat
deriving DecidableEq

/-- destIssues[tag].count++ together with destIssues[tag].severity[sev]++
(lines 601-602). -/
def bumpCell (c : IssueCell) (sev : Severity) : IssueCell :=
  match sev with
  | Severity.LOW => { c with count := c.count + 1, low := c.low + 1 }
  | Severity.MEDIUM => { c with count := c.count + 1, med := c.med + 1 }
  | Severity.HIGH => { c with count := c.count + 1, high := c.high + 1 }

/-- Initialise-if-absent then bump, on the severity-aware counter object
(lines 600-602). -/
def bumpIssue : List (String × IssueCell) → String → Severity → List (String × IssueCell)
  | [], tag, sev => [(tag, bumpCell ⟨0, 0, 0, 0⟩ sev)]
  | (k, c) :: rest, tag, sev =>
    if k = tag then (k, bumpCell c sev) :: rest else (k, c) :: bumpIssue rest tag sev

/-- destIssues of the OverviewPage destStats (lines 595-605): per-tag
occurrence and severity counts over a response subset. -/
def destIssuesOf (rs : List SurveyResponse) (anns : List Annotation) :
    List (String × IssueCell) :=
  rs.foldl
    (fun m r =>
      match annotFor anns r with
      | some a =>
        (a.tags.productTags ++ a.tags.coordinatorTags).foldl
          (fun m t => bumpIssue m t a.severity) m
      | none => m)
    []

/-! ## Stable sort by a numeric key

Array.prototype.sort with a numeric comparator is a stable sort; any
stable sort that orders by the comparator gives the same list, so it is
modelled as a stable insertion sort on a rational key (ascending; a
descending comparator such as (a, b) => b.count - a.count is the
ascending order of the negated key). -/

def insByKey {α κ : Type} [LinearOrder κ] (key : α → κ) (e : α) : List α → List α
  | [] => [e]
  | x :: xs => if key e < key x then e :: x :: xs else x :: insByKey key e xs

def sortByKey {α κ : Type} [LinearOrder κ] (key : α → κ) (l : List α) : List α :=
  l.foldl (fun acc e => insByKey key e acc) []

/-- Object.entries(issuesCount).sort((a, b) => b[1] - a[1])[0] (line 580). -/
def topIssueOf (rs : List SurveyResponse) (anns : List Annotation) :
    Option (String × Nat) :=
  (sortByKey (fun p => -(p.2 : ℤ)) (issuesCountOf rs anns)).head?

/-- Object.entries(destIssues).sort((a, b) => b[1].count - a[1].count)[0]
(line 607). -/
def topDestIssueOf (rs : List SurveyResponse) (anns : List Annotation) :
    Option (String × IssueCell) :=
  (sortByKey (fun p => -(p.2.count : ℤ)) (destIssuesOf rs anns)).head?

/-! ## Filtering and per-destination statistics (lines 540-616, 757-814)

The environment bundles the three entity collections that the inline
aggregations close over. The response subset is passed separately because
destStats consumes the already filtered list filteredData. -/

structure Env where
  destinations : List Destination
  itineraries : List Itinerary
  tours : List Tour
deriving DecidableEq

/-- The score-threshold branch of filteredData (lines 544-546):
filtered.filter(r => r.scores.overall < 8). -/
def applyBelow8 (rs : List SurveyResponse) : List SurveyResponse :=
  rs.filter (fun r => decide (r.scores.overall < 8))

/-- itineraries.filter(i => i.destinationId === dest.id).map(i => i.id)
(line 583). -/
def destItineraryIds (env : Env) (d : Destination) : List String :=
  (env.itineraries.filter (fun i => i.destinationId == d.id)).map (fun i => i.id)

/-- tours.filter(t => destItineraries.includes(t.itineraryId)).map(t => t.id)
(line 584). -/
def destTourIds (env : Env) (d : Destination) : List String :=
  (env.tours.filter (fun t => (destItineraryIds env d).contains t.itineraryId)).map
    (fun t => t.id)

/-- filteredData.filter(r => destTours.includes(r.tourId)) (line 585). -/
def destResponsesOf (env : Env) (rs : List SurveyResponse) (d : Destination) :
    List SurveyResponse :=
  rs.filter (fun r => (destTourIds env d).contains r.tourId)

/-- Mean overall score of the responses mapped to a destination, 0 when
there are none (lines 587-589). -/
def avgOf (env : Env) (rs : List SurveyResponse) (d : Destination) : ℚ :=
  if 0 < (destResponsesOf env rs d).length then
    ((destResponsesOf env rs d).map (fun r => r.scores.overall)).sum /
      ((destResponsesOf env rs d).length : ℚ)
  else 0

/-- Percentage of responses mapped to a destination with overall below 8,
0 when there are none (lines 591-593). -/
def below8Of (env : Env) (rs : List SurveyResponse) (d : Destination) : ℚ :=
  if 0 < (destResponsesOf env rs d).length then
    ((((destResponsesOf env rs d).filter
          (fun r => decide (r.scores.overall < 8))).length : ℚ) /
        ((destResponsesOf env rs d).length : ℚ)) * 100
  else 0

/-- One row of the per-destination summary (lines 609-615). -/
structure DestStat where
  dest : Destination
  avg : ℚ
  below8 : ℚ
  delta : ℚ
  topIssue : Option (String × IssueCell)
deriving DecidableEq

/-- The object returned for one destination (lines 582-615). The source
computes delta as (Math.random() - 0.7) * 2 (line 613); the stream of
Math.random values is modelled as an explicit argument rand indexed by the
position of the destination in the destinations array. -/
def destStatRow (env : Env) (anns : List Annotation) (rs : List SurveyResponse)
    (rand : Nat → ℚ) (i : Nat) (d : Destination) : DestStat :=
  { dest := d
    avg := avgOf env rs d
    below8 := below8Of env rs d
    delta := (rand i - 7/10) * 2
    topIssue := topDestIssueOf (destResponsesOf env rs d) anns }

/-- The summary rows of a list of destinations, with the position of each
destination in the original array made explicit for the rand stream. -/
def destStatRows (env : Env) (anns : List Annotation) (rs : List SurveyResponse)
    (rand : Nat → ℚ) : Nat → List Destination → List DestStat
  | _, [] => []
  | i, d :: ds =>
    destStatRow env anns rs rand i d :: destStatRows env anns rs rand (i + 1) ds

/-- destStats (lines 582-616): map destinations to their summary rows,
drop rows with avg not strictly positive, sort by delta ascending. -/
def destStats (env : Env) (anns : List Annotation) (rs : List SurveyResponse)
    (rand : Nat → ℚ) : List DestStat :=
  sortByKey (fun s => s.delta)
    ((destStatRows env anns rs rand 0 env.destinations).filter
      (fun s => decide (0 < s.avg)))

/-! ## Spec-side period delta (spec section 4.4)

The following definitions are the comparison point for the delta claim;
they follow the wording of the spec, not the source: week buckets of
length 7 from the data epoch, delta equal to the current-period mean minus
the previous-period mean for the same destination and filters. -/

/-- Spec-side week bucket of a tour: floor of days-since-epoch over 7. -/
def tourPeriod (t : Tour) : Nat :=
  t.startDate / 7

/-- The first tour of the list with the given id. -/
def tourById (ts : List Tour) (tid : String) : Option Tour :=
  match ts with
  | [] => none
  | t :: rest => if t.id == tid then some t else tourById rest tid

/-- Spec-side: the responses of a destination whose tour falls in the
given period bucket. -/
def periodResponses (env : Env) (rs : List SurveyResponse) (d : Destination)
    (p : Nat) : List SurveyResponse :=
  (destResponsesOf env rs d).filter
    (fun r =>
      match tourById env.tours r.tourId with
      | some t => decide (tourPeriod t = p)
      | none => false)

/-- Spec-side mean overall score of one period bucket of a destination. -/
def periodAvg (env : Env) (rs : List SurveyResponse) (d : Destination)
    (p : Nat) : ℚ :=
  if 0 < (periodResponses env rs d p).length then
    ((periodResponses env rs d p).map (fun r => r.scores.overall)).sum /
      ((periodResponses env rs d p).length : ℚ)
  else 0

/-- Spec-side delta: avgOverall of the current period minus avgOverall of
the previous period for the same destination and filters. -/
def specDelta (env : Env) (rs : List SurveyResponse) (d : Destination)
    (p : Nat) : ℚ :=
  periodAvg env rs d p - periodAvg env rs d (p - 1)

/-! ## Impact aggregation (lines 1020-1061) -/

/-- Per-action score improvement (line 1060). -/
def scoreDelta (a : CorrectiveAction) : ℚ :=
  a.impactMetrics.avgScoreAfter - a.impactMetrics.avgScoreBefore

/-- Per-action reduction of the share of responses below 8 (line 1061). -/
def pctDelta (a : CorrectiveAction) : ℚ :=
  a.impactMetrics.pctBelow8Before - a.impactMetrics.pctBelow8After

/-- totalAvgImprovement (lines 1025-1027): mean score improvement over the
filtered action set, 0 when the set is empty. -/
def totalAvgImprovement (acts : List CorrectiveAction) : ℚ :=
  if 0 < acts.length then
    (acts.foldl
        (fun sum a => sum + (a.impactMetrics.avgScoreAfter - a.impactMetrics.avgScoreBefore))
        0) / (acts.length : ℚ)
  else 0

/-- totalPctImprovement (lines 1029-1031): mean reduction of the share
below 8 over the filtered action set, 0 when the set is empty. -/
def totalPctImprovement (acts : List CorrectiveAction) : ℚ :=
  if 0 < acts.length then
    (acts.foldl
        (fun sum a => sum + (a.impactMetrics.pctBelow8Before - a.impactMetrics.pctBelow8After))
        0) / (acts.length : ℚ)
  else 0

/-! ## Recording a corrective action (lines 1975-2004 with the form
constraints of lines 2006-2113)

The complete-action form submits only when the HTML constraint validation
passes: actionTaken and implementedAt are required, the two score inputs
require 0 to 10 in steps of 0.1, the two percentage inputs require whole
numbers 0 to 100, and the two tour-count inputs require at least 1. The
submit handler then builds the record with id ca- followed by Date.now()
and the fields of the suggested action being completed. Field values are
modelled after parsing; a missing field is none. -/

structure CompleteActionForm where
  actionTaken : Option String
  implementedAt : Option String
  notes : Option String
  avgScoreBefore : Option ℚ
  avgScoreAfter : Option ℚ
  pctBelow8Before : Option ℚ
  pctBelow8After : Option ℚ
  toursBeforeAction : Option Int
  toursAfterAction : Option Int
deriving DecidableEq

/-- A required text input: present and non-empty. -/
def requiredTextOk (v : Option String) : Bool :=
  match v with
  | some s => s != ""
  | none => false

/-- A score input: required, min 0, max 10, step 0.1 (an integer multiple
of one tenth). -/
def scoreFieldOk (v : Option ℚ) : Bool :=
  match v with
  | some x => decide (0 ≤ x) && decide (x ≤ 10) && ((x * 10).den == 1)
  | none => false

/-- A percentage input: required, min 0, max 100, step 1 (a whole
number). -/
def pctFieldOk (v : Option ℚ) : Bool :=
  match v with
  | some x => decide (0 ≤ x) && decide (x ≤ 100) && (x.den == 1)
  | none => false

/-- A tour-count input: required, min 1. -/
def toursFieldOk (v : Option Int) : Bool :=
  match v with
  | some n => decide (1 ≤ n)
  | none => false

/-- The conjunction of all constraints of the complete-action form. -/
def completeActionFormValid (f : CompleteActionForm) : Bool :=
  requiredTextOk f.actionTaken && requiredTextOk f.implementedAt &&
  scoreFieldOk f.avgScoreBefore && scoreFieldOk f.avgScoreAfter &&
  pctFieldOk f.pctBelow8Before && pctFieldOk f.pctBelow8After &&
  toursFieldOk f.toursBeforeAction && toursFieldOk f.toursAfterAction

/-- The record built by the submit handler (lines 1981-1999), with the
current time in milliseconds passed explicitly. -/
def buildCorrectiveAction (sa : SuggestedAction) (now : Nat)
    (f : CompleteActionForm) : CorrectiveAction :=
  { id := "ca-" ++ toString now
    suggestedActionId := some sa.id
    destinationId := sa.destinationId
    itineraryId := sa.itineraryId
    issueTag := sa.issueTag
    actionTaken := f.actionTaken.getD ""
    implementedAt := f.implementedAt.getD ""
    owner := sa.owner
    notes := f.notes.getD ""
    impactMetrics :=
      { avgScoreBefore := f.avgScoreBefore.getD 0
        avgScoreAfter := f.avgScoreAfter.getD 0
        pctBelow8Before := f.pctBelow8Before.getD 0
        pctBelow8After := f.pctBelow8After.getD 0
        toursBeforeAction := f.toursBeforeAction.getD 0
        toursAfterAction := f.toursAfterAction.getD 0 } }

/-- Recording a corrective action: the new record when every form
constraint holds, a validation error otherwise. -/
def recordCorrectiveAction (sa : SuggestedAction) (now : Nat)
    (f : CompleteActionForm) : Except String CorrectiveAction :=
  if completeActionFormValid f then
    Except.ok (buildCorrectiveAction sa now f)
  else
    Except.error "ValidationError"

/-- Propositional reading of a required text input: present and
non-empty. -/
def textPresent (v : Option String) : Prop :=
  match v with
  | some s => s ≠ ""
  | none => False

/-- Propositional reading of a score input: present, between 0 and 10,
and an integer multiple of one tenth. -/
def scoreInRange (v : Option ℚ) : Prop :=
  match v with
  | some x => 0 ≤ x ∧ x ≤ 10 ∧ (x * 10).den = 1
  | none => False

/-- Propositional reading of a percentage input: present, between 0 and
100, and a whole number. -/
def pctInRange (v : Option ℚ) : Prop :=
  match v with
  | some x => 0 ≤ x ∧ x ≤ 100 ∧ x.den = 1
  | none => False

/-- Propositional reading of a tour-count input: present and at least 1. -/
def toursInRange (v : Option Int) : Prop :=
  match v with
  | some n => 1 ≤ n
  | none => False

/-- A complete-action form that is structurally complete and meets every
declared input range of the form. -/
def FormCompleteInRange (f : CompleteActionForm) : Prop :=
  textPresent f.actionTaken ∧ textPresent f.implementedAt ∧
  scoreInRange f.avgScoreBefore ∧ scoreInRange f.avgScoreAfter ∧
  pctInRange f.pctBelow8Before ∧ pctInRange f.pctBelow8After ∧
  toursInRange f.toursBeforeAction ∧ toursInRange f.toursAfterAction

/-! ## Concrete sample data used by counterexamples and witnesses -/

/-- A survey response with the given overall score and neutral values for
every other field. -/
def mkResponse (rid tid : String) (o : ℚ) : SurveyResponse :=
  { id := rid, tourId := tid, createdAt := 0,
    scores := ⟨o, o, o, o, o, o, o, o⟩,
    comments := ⟨"", "", "", ""⟩, domain := "weroad.com" }

/-- An annotation with the given tag lists and severity. -/
def mkAnnot (rid : String) (pt ct : List String) (sev : Severity) : Annotation :=
  { responseId := rid, tags := ⟨pt, ct⟩, severity := sev,
    confidence := 9/10, evidenceSnippets := ["Accommodation cleanliness below standard"] }

/-- A tour of the given itinerary starting on the given epoch day. -/
def mkTour (tid iid : String) (start : Nat) : Tour :=
  { id := tid, itineraryId := iid, startDate := start, endDate := start + 7,
    productLine := ProductLine.WR, dmcName := "Adventure DMC",
    coordinatorName := "Sarah M." }

/-- Environment for the delta claim: one destination with one itinerary
and two tours, one in week 0 and one in week 1. -/
def envC1 : Env :=
  { destinations := [{ id := "d1", name := "Bali", country := "Indonesia" }],
    itineraries := [{ id := "i1", name := "Bali Beach", destinationId := "d1" }],
    tours := [mkTour "t1" "i1" 0, mkTour "t2" "i1" 7] }

def dC1 : Destination :=
  { id := "d1", name := "Bali", country := "Indonesia" }

/-- Responses for the delta claim: week 0 scores 9, week 1 scores 7, so
the true period-over-period delta is minus 2. -/
def rsC1 : List SurveyResponse :=
  [mkResponse "r1" "t1" 9, mkResponse "r2" "t2" 7]

/-- Response and annotation with the same tag in both tag lists, for the
deduplication claim. -/
def rC2 : SurveyResponse := mkResponse "r1" "t1" 7

def aC2 : Annotation :=
  mkAnnot "r1" ["cleanliness_hygiene"] ["cleanliness_hygiene"] Severity.LOW

/-- Witness data for the amended deduplication claim: two annotated
responses with duplicate-free tag lists. -/
def rsC2w : List SurveyResponse :=
  [mkResponse "r1" "t1" 7, mkResponse "r2" "t1" 6]

def annsC2w : List Annotation :=
  [mkAnnot "r1" ["poor_accommodation_quality"] [] Severity.LOW,
   mkAnnot "r2" ["poor_accommodation_quality"] ["weak_leadership_decision_making"]
     Severity.MEDIUM]

/-- Data for the tie-break claim: two tags with count 1 each, the
lexicographically larger one inserted first. -/
def rsC3 : List SurveyResponse :=
  [mkResponse "r1" "t1" 7, mkResponse "r2" "t1" 6]

def annsC3 : List Annotation :=
  [mkAnnot "r1" ["logistics_failures"] [] Severity.LOW,
   mkAnnot "r2" ["cleanliness_hygiene"] [] Severity.LOW]

/-- Witness data for the amended ranking claim: one tag with count 2 and
one with count 1. -/
def rsC3w : List SurveyResponse :=
  [mkResponse "r1" "t1" 7, mkResponse "r2" "t1" 6, mkResponse "r3" "t1" 5]

def annsC3w : List Annotation :=
  [mkAnnot "r1" ["poor_accommodation_quality"] [] Severity.LOW,
   mkAnnot "r2" ["poor_accommodation_quality"] ["logistics_failures"] Severity.MEDIUM,
   mkAnnot "r3" [] [] Severity.HIGH]

/-- Response carrying an annotation with empty tag lists, as the data
generator can produce (lines 200-218), for the conservation claim. -/
def rC4 : SurveyResponse := mkResponse "r1" "t1" 7

def aC4 : Annotation := mkAnnot "r1" [] [] Severity.LOW

/-- Witness data for the amended conservation claim: one annotated
response carrying exactly one tag plus one unannotated response. -/
def rsC4w : List SurveyResponse :=
  [mkResponse "r1" "t1" 7, mkResponse "r2" "t1" 9]

def annsC4w : List Annotation :=
  [mkAnnot "r1" ["cleanliness_hygiene"] [] Severity.LOW]

/-- Suggested action being completed in the corrective-action claims. -/
def saC5 : SuggestedAction :=
  { id := "sa-1", destinationId := "d1", itineraryId := some "i1",
    issueTag := "poor_accommodation_quality",
    actionType := ActionType.ACCOMMODATION_UPGRADE,
    description := "Review and upgrade hotel in Ubud",
    priority := ActionPriority.HIGH, status := ActionStatus.IN_PROGRESS,
    createdAt := "2024-12-01", dueDate := "2025-01-15", owner := "Anna P.",
    affectedTours := 8 }

/-- A complete form whose only departure from the claimed ranges is a
tour count of 0, which the claim declares in range but the form input
with min 1 rejects. -/
def fBadC5 : CompleteActionForm :=
  { actionTaken := some "Replaced the hotel", implementedAt := some "2025-01-10",
    notes := none, avgScoreBefore := some (13/2), avgScoreAfter := some 8,
    pctBelow8Before := some 60, pctBelow8After := some 25,
    toursBeforeAction := some 8, toursAfterAction := some 0 }

/-- A form meeting every constraint of the complete-action form. -/
def fGoodC5 : CompleteActionForm :=
  { actionTaken := some "Replaced the hotel", implementedAt := some "2025-01-10",
    notes := none, avgScoreBefore := some (13/2), avgScoreAfter := some 8,
    pctBelow8Before := some 60, pctBelow8After := some 25,
    toursBeforeAction := some 8, toursAfterAction := some 5 }

/-- A corrective action with score 6.5 before and 8.0 after, for the
impact-aggregate witness. -/
def actC6 : CorrectiveAction :=
  { id := "ca-1", suggestedActionId := some "sa-1", destinationId := "d1",
    itineraryId := some "i1", issueTag := "poor_accommodation_quality",
    actionTaken := "Replaced the hotel", implementedAt := "2025-01-10",
    owner := "Anna P.", notes := "",
    impactMetrics :=
      { avgScoreBefore := 13/2, avgScoreAfter := 8, pctBelow8Before := 60,
        pctBelow8After := 25, toursBeforeAction := 8, toursAfterAction := 5 } }

/-- Environment for the destination-summary witness: destination dA has
one response, destination dB has none. -/
def envC7 : Env :=
  { destinations :=
      [{ id := "dA", name := "Iceland", country := "Iceland" },
       { id := "dB", name := "Jordan", country := "Jordan" }],
    itineraries := [{ id := "iA", name := "Iceland Ring Road", destinationId := "dA" }],
    tours := [mkTour "tA" "iA" 0] }

def dBC7 : Destination := { id := "dB", name := "Jordan", country := "Jordan" }

def rsC7 : List SurveyResponse := [mkResponse "r1" "tA" 9]

/-- The single summary row produced by destStats on the witness data of
the destination-summary claim, with rand constantly 1. -/
def rowC7 : DestStat :=
  { dest := { id := "dA", name := "Iceland", country := "Iceland" },
    avg := 9, below8 := 0, delta := 3/5, topIssue := none }

/-- Data for the severity-invariant witness. -/
def rsC8 : List SurveyResponse := [mkResponse "r1" "t1" 5]

def annsC8 : List Annotation :=
  [mkAnnot "r1" ["cleanliness_hygiene"] [] Severity.HIGH]

def pC8 : String × IssueCell := ("cleanliness_hygiene", ⟨1, 0, 0, 1⟩)

/-- Environment for the threshold-filter witness: one destination with a
single response scoring 5. -/
def envC9 : Env :=
  { destinations := [{ id := "d1", name := "Morocco", country := "Morocco" }],
    itineraries := [{ id := "i1", name := "Morocco Imperial Cities", destinationId := "d1" }],
    tours := [mkTour "t1" "i1" 0] }

def dC9 : Destination := { id := "d1", name := "Morocco", country := "Morocco" }

def rsC9 : List SurveyResponse := [mkResponse "r1" "t1" 5]

/-- Environment for the zero-score exclusion witness: destination dG has
a response scoring 9, destination dZ has a response scoring 0. -/
def envC10 : Env :=
  { destinations :=
      [{ id := "dG", name := "Peru", country := "Peru" },
       { id := "dZ", name := "Croatia", country := "Croatia" }],
    itineraries :=
      [{ id := "iG", name := "Peru Inca Trail", destinationId := "dG" },
       { id := "iZ", name := "Croatia Island Hopping", destinationId := "dZ" }],
    tours := [mkTour "tG" "iG" 0, mkTour "tZ" "iZ" 0] }

def dZC10 : Destination := { id := "dZ", name := "Croatia", country := "Croatia" }

def rsC10 : List SurveyResponse :=
  [mkResponse "r1" "tG" 9, mkResponse "r2" "tZ" 0]

/-- The single summary row produced by destStats on the witness data of
the zero-score exclusion claim, with rand constantly 1. -/
def rowC10 : DestStat :=
  { dest := { id := "dG", name := "Peru", country := "Peru" },
    avg := 9, below8 := 0, delta := 3/5, topIssue := none }

/-! ## Lemmas about the stable sort -/

theorem mem_insByKey {α κ : Type} [LinearOrder κ] (key : α → κ) (e : α)
    (l : List α) (y : α) : y ∈ insByKey key e l ↔ y = e ∨ y ∈ l := by
  induction l with
  | nil => simp [insByKey]
  | cons x xs ih =>
    simp only [insByKey]
    by_cases hc : key e < key x
    · rw [if_pos hc]
      simp [List.mem_cons]
    · rw [if_neg hc]
      simp only [List.mem_cons, ih]
      tauto

theorem pairwise_insByKey {α κ : Type} [LinearOrder κ] (key : α → κ) (e : α)
    (l : List α) (h : l.Pairwise (fun a b => key a ≤ key b)) :
    (insByKey key e l).Pairwise (fun a b => key a ≤ key b) := by
  induction l with
  | nil => simp [insByKey]
  | cons x xs ih =>
    rcases List.pairwise_cons.1 h with ⟨hx, hxs⟩
    simp only [insByKey]
    by_cases hc : key e < key x
    · rw [if_pos hc]
      refine List.pairwise_cons.2 ⟨?_, List.pairwise_cons.2 ⟨hx, hxs⟩⟩
      intro b hb
      rcases List.mem_cons.1 hb with rfl | hb
      · exact le_of_lt hc
      · exact le_trans (le_of_lt hc) (hx b hb)
    · rw [if_neg hc]
      refine List.pairwise_cons.2 ⟨?_, ih hxs⟩
      intro b hb
      rcases (mem_insByKey key e xs b).1 hb with rfl | hb
      · exact le_of_not_lt hc
      · exact hx b hb

theorem mem_foldl_insByKey {α κ : Type} [LinearOrder κ] (key : α → κ)
    (l : List α) : ∀ (acc : List α) (y : α),
    (y ∈ l.foldl (fun acc e => insByKey key e acc) acc) ↔ y ∈ acc ∨ y ∈ l := by
  induction l with
  | nil => simp
  | cons x xs ih =>
    intro acc y
    rw [List.foldl_cons, ih, mem_insByKey]
    simp only [List.mem_cons]
    tauto

theorem mem_sortByKey {α κ : Type} [LinearOrder κ] (key : α → κ)
    (l : List α) (y : α) : y ∈ sortByKey key l ↔ y ∈ l := by
  unfold sortByKey
  rw [mem_foldl_insByKey]
  simp

theorem pairwise_sortByKey {α κ : Type} [LinearOrder κ] (key : α → κ)
    (l : List α) : (sortByKey key l).Pairwise (fun a b => key a ≤ key b) := by
  unfold sortByKey
  suffices h : ∀ acc : List α, acc.Pairwise (fun a b => key a ≤ key b) →
      (l.foldl (fun acc e => insByKey key e acc) acc).Pairwise
        (fun a b => key a ≤ key b) by
    exact h [] (by simp)
  induction l with
  | nil => intro acc hacc; simpa using hacc
  | cons x xs ih =>
    intro acc hacc
    rw [List.foldl_cons]
    exact ih _ (pairwise_insByKey key x acc hacc)

theorem head_sortByKey_min {α κ : Type} [LinearOrder κ] (key : α → κ)
    (l : List α) (p : α) (h : (sortByKey key l).head? = some p) :
    p ∈ l ∧ ∀ q ∈ l, key p ≤ key q := by
  obtain ⟨rest, hrest⟩ : ∃ rest, sortByKey key l = p :: rest := by
    cases hl : sortByKey key l with
    | nil => rw [hl] at h; cases h
    | cons a t =>
      rw [hl] at h
      cases h
      exact ⟨t, rfl⟩
  constructor
  · have : p ∈ sortByKey key l := by rw [hrest]; exact List.mem_cons_self p rest
    exact (mem_sortByKey key l p).1 this
  · intro q hq
    have hq' : q ∈ sortByKey key l := (mem_sortByKey key l q).2 hq
    rw [hrest] at hq'
    rcases List.mem_cons.1 hq' with rfl | hq'
    · exact le_refl _
    · have hp := pairwise_sortByKey key l
      rw [hrest] at hp
      exact (List.pairwise_cons.1 hp).1 q hq'

/-! ## Lemmas about the tag counters -/

theorem getCount_bumpCount (m : List (String × Nat)) (s t : String) :
    getCount (bumpCount m s) t = getCount m t + (if s = t then 1 else 0) := by
  induction m with
  | nil =>
    simp only [bumpCount, getCount]
    split <;> simp
  | cons p rest ih =>
    obtain ⟨k, n⟩ := p
    by_cases hk : k = s
    · subst hk
      simp only [bumpCount, if_pos rfl, getCount]
      by_cases ht : k = t
      · simp [ht]
      · simp [ht]
    · simp only [bumpCount, if_neg hk, getCount]
      by_cases ht : k = t
      · have hst : ¬ s = t := fun h => hk (ht.trans h.symm)
        simp [ht, hst]
      · simp [ht, ih]

theorem getCount_foldl_bump (t : String) (l : List String) :
    ∀ m : List (String × Nat),
    getCount (l.foldl bumpCount m) t = getCount m t + occ t l := by
  induction l with
  | nil => intro m; simp [occ]
  | cons s rest ih =>
    intro m
    rw [List.foldl_cons, ih, getCount_bumpCount]
    simp only [occ]
    omega

theorem getCount_issuesCountOf (rs : List SurveyResponse)
    (anns : List Annotation) (t : String) :
    getCount (issuesCountOf rs anns) t =
      (rs.map (fun r => occ t (annTagList anns r))).sum := by
  unfold issuesCountOf
  suffices h : ∀ m : List (String × Nat),
      getCount (rs.foldl (fun m r => (annTagList anns r).foldl bumpCount m) m) t =
        getCount m t + (rs.map (fun r => occ t (annTagList anns r))).sum by
    simpa [getCount] using h []
  induction rs with
  | nil => intro m; simp
  | cons r rest ih =>
    intro m
    rw [List.foldl_cons, ih, getCount_foldl_bump]
    simp only [List.map_cons, List.sum_cons]
    omega

theorem annotFor_mem (anns : List Annotation) (r : SurveyResponse)
    (a : Annotation) (h : annotFor anns r = some a) : a ∈ anns := by
  induction anns with
  | nil => simp [annotFor] at h
  | cons a0 rest ih =>
    simp only [annotFor] at h
    by_cases hc : (a0.responseId == r.id) = true
    · rw [if_pos hc] at h
      obtain rfl : a0 = a := Option.some.inj h
      exact List.mem_cons_self _ _
    · rw [if_neg hc] at h
      exact List.mem_cons_of_mem a0 (ih h)

theorem occ_nodup (t : String) (l : List String) (h : l.Nodup) :
    occ t l = if t ∈ l then 1 else 0 := by
  induction l with
  | nil => simp [occ]
  | cons s rest ih =>
    rcases List.nodup_cons.1 h with ⟨hs, hrest⟩
    simp only [occ, ih hrest]
    by_cases hst : s = t
    · subst hst
      simp [hs]
    · simp [hst, Ne.symm hst]

theorem sum_ite_mem_eq_filter_length (t : String) (anns : List Annotation)
    (rs : List SurveyResponse) :
    (rs.map (fun r => if t ∈ annTagList anns r then 1 else 0)).sum =
      (rs.filter (fun r => decide (t ∈ annTagList anns r))).length := by
  induction rs with
  | nil => simp
  | cons r rest ih =>
    simp only [List.map_cons, List.sum_cons, List.filter_cons]
    by_cases hm : t ∈ annTagList anns r
    · simp [hm, ih, Nat.add_comm]
    · simp [hm, ih]

theorem totalCount_bumpCount (m : List (String × Nat)) (s : String) :
    totalCount (bumpCount m s) = totalCount m + 1 := by
  induction m with
  | nil => simp [bumpCount, totalCount]
  | cons p rest ih =>
    obtain ⟨k, n⟩ := p
    simp only [bumpCount]
    by_cases hk : k = s
    · rw [if_pos hk]
      simp only [totalCount, List.map_cons, List.sum_cons]
      omega
    · rw [if_neg hk]
      simp only [totalCount, List.map_cons, List.sum_cons] at ih ⊢
      omega

theorem totalCount_foldl_bump (l : List String) :
    ∀ m : List (String × Nat),
    totalCount (l.foldl bumpCount m) = totalCount m + l.length := by
  induction l with
  | nil => intro m; simp
  | cons s rest ih =>
    intro m
    rw [List.foldl_cons, ih, totalCount_bumpCount]
    simp only [List.length_cons]
    omega

theorem totalCount_issuesCountOf (rs : List SurveyResponse)
    (anns : List Annotation) :
    totalCount (issuesCountOf rs anns) =
      (rs.map (fun r => (annTagList anns r).length)).sum := by
  unfold issuesCountOf
  suffices h : ∀ m : List (String × Nat),
      totalCount (rs.foldl (fun m r => (annTagList anns r).foldl bumpCount m) m) =
        totalCount m + (rs.map (fun r => (annTagList anns r).length)).sum by
    simpa [totalCount] using h []
  induction rs with
  | nil => intro m; simp
  | cons r rest ih =>
    intro m
    rw [List.foldl_cons, ih, totalCount_foldl_bump]
    simp only [List.map_cons, List.sum_cons]
    omega

/-! ## Lemmas about the severity-aware counters -/

theorem bumpCell_inv (c : IssueCell) (sev : Severity)
    (h : c.low + c.med + c.high = c.count) :
    (bumpCell c sev).low + (bumpCell c sev).med + (bumpCell c sev).high =
      (bumpCell c sev).count := by
  cases sev <;> simp [bumpCell] <;> omega

theorem bumpIssue_inv (m : List (String × IssueCell)) (t : String)
    (sev : Severity) (h : ∀ p ∈ m, p.2.low + p.2.med + p.2.high = p.2.count) :
    ∀ p ∈ bumpIssue m t sev, p.2.low + p.2.med + p.2.high = p.2.count := by
  induction m with
  | nil =>
    intro p hp
    simp only [bumpIssue, List.mem_singleton] at hp
    subst hp
    exact bumpCell_inv ⟨0, 0, 0, 0⟩ sev (by simp)
  | cons q rest ih =>
    obtain ⟨k, c⟩ := q
    intro p hp
    simp only [bumpIssue] at hp
    by_cases hk : k = t
    · rw [if_pos hk] at hp
      rcases List.mem_cons.1 hp with rfl | hp
      · exact bumpCell_inv c sev (h (k, c) (List.mem_cons_self _ _))
      · exact h p (List.mem_cons_of_mem _ hp)
    · rw [if_neg hk] at hp
      rcases List.mem_cons.1 hp with rfl | hp
      · exact h (k, c) (List.mem_cons_self _ _)
      · exact ih (fun q hq => h q (List.mem_cons_of_mem _ hq)) p hp

theorem foldl_bumpIssue_inv (l : List String) (sev : Severity) :
    ∀ m : List (String × IssueCell),
    (∀ p ∈ m, p.2.low + p.2.med + p.2.high = p.2.count) →
    ∀ p ∈ l.foldl (fun m t => bumpIssue m t sev) m,
      p.2.low + p.2.med + p.2.high = p.2.count := by
  induction l with
  | nil => intro m hm; simpa using hm
  | cons t rest ih =>
    intro m hm
    rw [List.foldl_cons]
    exact ih _ (bumpIssue_inv m t sev hm)

/-! ## Lemmas about the per-destination summary -/

theorem mem_destStatRows (env : Env) (anns : List Annotation)
    (rs : List SurveyResponse) (rand : Nat → ℚ) :
    ∀ (ds : List Destination) (i : Nat) (s : DestStat),
    s ∈ destStatRows env anns rs rand i ds →
    ∃ j d, d ∈ ds ∧ s = destStatRow env anns rs rand j d := by
  intro ds
  induction ds with
  | nil => intro i s hs; simp [destStatRows] at hs
  | cons d rest ih =>
    intro i s hs
    rcases List.mem_cons.1 hs with rfl | hs
    · exact ⟨i, d, List.mem_cons_self _ _, rfl⟩
    · obtain ⟨j, d0, hd0, hs0⟩ := ih (i + 1) s hs
      exact ⟨j, d0, List.mem_cons_of_mem _ hd0, hs0⟩

theorem destStats_mem_char (env : Env) (anns : List Annotation)
    (rs : List SurveyResponse) (rand : Nat → ℚ) (s : DestStat)
    (hs : s ∈ destStats env anns rs rand) :
    0 < s.avg ∧ s.avg = avgOf env rs s.dest ∧ s.below8 = below8Of env rs s.dest := by
  unfold destStats at hs
  rw [mem_sortByKey] at hs
  rw [List.mem_filter] at hs
  obtain ⟨hrow, hpos⟩ := hs
  obtain ⟨j, d, hd, rfl⟩ := mem_destStatRows env anns rs rand env.destinations 0 _ hrow
  refine ⟨by simpa using hpos, ?_, ?_⟩ <;> simp [destStatRow]

theorem avgOf_eq_zero_of_empty (env : Env) (rs : List SurveyResponse)
    (d : Destination) (h : destResponsesOf env rs d = []) :
    avgOf env rs d = 0 := by
  unfold avgOf
  rw [h]
  simp

theorem avgOf_of_ne_empty (env : Env) (rs : List SurveyResponse)
    (d : Destination) (h : destResponsesOf env rs d ≠ []) :
    avgOf env rs d =
      ((destResponsesOf env rs d).map (fun r => r.scores.overall)).sum /
        ((destResponsesOf env rs d).length : ℚ) := by
  unfold avgOf
  rw [if_pos (List.length_pos.2 h)]

/-! ## Lemma about summing impact deltas -/

theorem foldl_add_eq_sum {α : Type} (f : α → ℚ) (l : List α) :
    ∀ c : ℚ, l.foldl (fun s a => s + f a) c = c + (l.map f).sum := by
  induction l with
  | nil => intro c; simp
  | cons x xs ih =>
    intro c
    rw [List.foldl_cons, ih]
    simp only [List.map_cons, List.sum_cons]
    ring

/-! ## Lemmas bridging the boolean form validators and their
propositional readings -/

theorem requiredTextOk_iff (v : Option String) :
    requiredTextOk v = true ↔ textPresent v := by
  cases v <;> simp [requiredTextOk, textPresent]

theorem scoreFieldOk_iff (v : Option ℚ) :
    scoreFieldOk v = true ↔ scoreInRange v := by
  cases v <;> simp [scoreFieldOk, scoreInRange, and_assoc]

theorem pctFieldOk_iff (v : Option ℚ) :
    pctFieldOk v = true ↔ pctInRange v := by
  cases v <;> simp [pctFieldOk, pctInRange, and_assoc]

theorem toursFieldOk_iff (v : Option Int) :
    toursFieldOk v = true ↔ toursInRange v := by
  cases v <;> simp [toursFieldOk, toursInRange]

theorem completeActionFormValid_iff (f : CompleteActionForm) :
    completeActionFormValid f = true ↔ FormCompleteInRange f := by
  unfold completeActionFormValid FormCompleteInRange
  simp only [Bool.and_eq_true, requiredTextOk_iff, scoreFieldOk_iff,
    pctFieldOk_iff, toursFieldOk_iff, and_assoc]

theorem annotated_le_tag_sum (anns : List Annotation) (rs : List SurveyResponse)
    (h : ∀ r ∈ rs, ∀ a, annotFor anns r = some a →
      1 ≤ (a.tags.productTags ++ a.tags.coordinatorTags).length) :
    (rs.filter (fun r => (annotFor anns r).isSome)).length ≤
      (rs.map (fun r => (annTagList anns r).length)).sum := by
  induction rs with
  | nil => simp
  | cons r rest ih =>
    have hrest := fun r hr => h r (List.mem_cons_of_mem _ hr)
    rw [List.filter_cons, List.map_cons, List.sum_cons]
    cases hfind : annotFor anns r with
    | none =>
      simp only [hfind, Option.isSome_none, Bool.false_eq_true, if_false]
      exact le_trans (ih hrest) (Nat.le_add_left _ _)
    | some a =>
      have h1 := h r (List.mem_cons_self _ _) a hfind
      have htl : annTagList anns r = a.tags.productTags ++ a.tags.coordinatorTags := by
        simp [annTagList, hfind]
      rw [htl]
      simp only [hfind, Option.isSome_some, if_true, List.length_cons]
      have h2 := ih hrest
      omega

theorem tag_sum_eq_annotated (anns : List Annotation) (rs : List SurveyResponse)
    (h : ∀ r ∈ rs, ∀ a, annotFor anns r = some a →
      (a.tags.productTags ++ a.tags.coordinatorTags).length = 1) :
    (rs.map (fun r => (annTagList anns r).length)).sum =
      (rs.filter (fun r => (annotFor anns r).isSome)).length := by
  induction rs with
  | nil => simp
  | cons r rest ih =>
    have hrest := fun r hr => h r (List.mem_cons_of_mem _ hr)
    rw [List.filter_cons, List.map_cons, List.sum_cons]
    cases hfind : annotFor anns r with
    | none =>
      have htl : annTagList anns r = [] := by simp [annTagList, hfind]
      rw [htl]
      simp only [hfind, Option.isSome_none, Bool.false_eq_true, if_false,
        List.length_nil]
      simpa using ih hrest
    | some a =>
      have h1 := h r (List.mem_cons_self _ _) a hfind
      have htl : annTagList anns r = a.tags.productTags ++ a.tags.coordinatorTags := by
        simp [annTagList, hfind]
      rw [htl]
      simp only [hfind, Option.isSome_some, if_true, List.length_cons]
      have h2 := ih hrest
      omega

/-- Claim C2, counterexample: the aggregation concatenates the two tag
lists without deduplication, so an annotation carrying the same tag in
productTags and coordinatorTags makes one response increment that tag
counter twice, where the claim demands exactly one. -/
theorem c2_tag_in_both_lists_counts_twice :
    getCount (issuesCountOf [rC2] [aC2]) "cleanliness_hygiene" = 2 ∧
    getCount (issuesCountOf [rC2] [aC2]) "cleanliness_hygiene" ≠ 1 := by
  constructor <;> decide

/-- Claim C2, amended: a response increments a tag counter once per
occurrence of the tag in the concatenation of its two tag lists, so when
every annotation has a duplicate-free combined tag list (as the disjoint
controlled vocabulary guarantees), each response contributes exactly once
per tag and the counter of a tag equals the number of responses whose
annotation carries it. -/
theorem c2_count_once_per_response_when_nodup (rs : List SurveyResponse)
    (anns : List Annotation) (t : String)
    (h : ∀ a ∈ anns, (a.tags.productTags ++ a.tags.coordinatorTags).Nodup) :
    getCount (issuesCountOf rs anns) t =
      (rs.filter (fun r => decide (t ∈ annTagList anns r))).length := by
  rw [getCount_issuesCountOf, ← sum_ite_mem_eq_filter_length]
  congr 1
  apply List.map_congr_left
  intro r hr
  unfold annTagList
  cases hfind : annotFor anns r with
  | none => simp [occ]
  | some a => exact occ_nodup t _ (h a (annotFor_mem anns r a hfind))

/-- Claim C2, witness: on two annotated responses with duplicate-free tag
lists, the counter of the shared tag equals the number of responses
carrying it. -/
theorem c2_count_once_witness :
    getCount (issuesCountOf rsC2w annsC2w) "poor_accommodation_quality" =
      (rsC2w.filter
        (fun r => decide ("poor_accommodation_quality" ∈ annTagList annsC2w r))).length :=
  c2_count_once_per_response_when_nodup rsC2w annsC2w
    "poor_accommodation_quality" (by decide)

/-- Claim C3, counterexample: with two tags tied at count 1, the top
issue is the tag inserted first (logistics_failures), not the
lexicographically smaller tag name (cleanliness_hygiene), refuting the
name-ascending tie-break. -/
theorem c3_tie_not_broken_by_name :
    topIssueOf rsC3 annsC3 = some ("logistics_failures", 1) ∧
    getCount (issuesCountOf rsC3 annsC3) "cleanliness_hygiene" = 1 ∧
    getCount (issuesCountOf rsC3 annsC3) "logistics_failures" = 1 ∧
    "cleanliness_hygiene".data < "logistics_failures".data := by
  refine ⟨by decide, by decide, by decide, by decide⟩

/-- Claim C3, amended: tags are ranked by count descending with ties
broken by insertion order, so the top issue always carries a maximal
count; determinism on a fixed input holds because the aggregation is a
pure function of the response list. -/
theorem c3_top_issue_has_max_count (rs : List SurveyResponse)
    (anns : List Annotation) (p : String × Nat)
    (h : topIssueOf rs anns = some p) :
    p ∈ issuesCountOf rs anns ∧
    ∀ q ∈ issuesCountOf rs anns, q.2 ≤ p.2 := by
  unfold topIssueOf at h
  obtain ⟨hmem, hmin⟩ := head_sortByKey_min _ _ p h
  refine ⟨hmem, fun q hq => ?_⟩
  have hk := hmin q hq
  exact_mod_cast neg_le_neg_iff.1 hk

/-- Claim C3, witness: on data where one tag occurs twice and another
once, the top issue is the count-2 tag and its count dominates the
count-1 tag. -/
theorem c3_top_issue_witness :
    ("poor_accommodation_quality", 2) ∈ issuesCountOf rsC3w annsC3w ∧
    ("logistics_failures", 1).2 ≤ ("poor_accommodation_quality", 2).2 := by
  have h := c3_top_issue_has_max_count rsC3w annsC3w
    ("poor_accommodation_quality", 2) (by decide)
  exact ⟨h.1, h.2 ("logistics_failures", 1) (by decide)⟩

/-- Claim C4, counterexample: the data generator can attach an annotation
whose two tag lists are both empty, and such a response contributes
nothing to the tag counters, so the sum of occurrence counts drops below
the number of annotated responses. -/
theorem c4_sum_below_annotated_when_tagless :
    ¬ (annotatedCount [rC4] [aC4] ≤ totalCount (issuesCountOf [rC4] [aC4])) := by
  decide

/-- Claim C4, amended: the sum of all tag occurrence counts equals the
total number of tag occurrences across annotated responses; it is at
least the number of annotated responses when every annotated response
carries at least one tag, with equality when every annotated response
carries exactly one tag. -/
theorem c4_issue_count_conservation (rs : List SurveyResponse)
    (anns : List Annotation) :
    ((∀ r ∈ rs, ∀ a, annotFor anns r = some a →
        1 ≤ (a.tags.productTags ++ a.tags.coordinatorTags).length) →
      annotatedCount rs anns ≤ totalCount (issuesCountOf rs anns)) ∧
    ((∀ r ∈ rs, ∀ a, annotFor anns r = some a →
        (a.tags.productTags ++ a.tags.coordinatorTags).length = 1) →
      totalCount (issuesCountOf rs anns) = annotatedCount rs anns) := by
  constructor
  · intro h
    rw [totalCount_issuesCountOf]
    exact annotated_le_tag_sum anns rs h
  · intro h
    rw [totalCount_issuesCountOf]
    exact tag_sum_eq_annotated anns rs h

/-- Claim C4, witness: with one annotated response carrying exactly one
tag and one unannotated response, the sum of counts equals the number of
annotated responses. -/
theorem c4_conservation_witness :
    annotatedCount rsC4w annsC4w ≤ totalCount (issuesCountOf rsC4w annsC4w) ∧
    totalCount (issuesCountOf rsC4w annsC4w) = annotatedCount rsC4w annsC4w :=
  ⟨(c4_issue_count_conservation rsC4w annsC4w).1 (by decide),
   (c4_issue_count_conservation rsC4w annsC4w).2 (by decide)⟩

/-- Claim C8: in the severity-aware aggregation, every tag cell satisfies
low plus medium plus high equal to count, because each contribution
increments the total and exactly one severity bucket together. -/
theorem c8_severity_counts_sum_to_count (rs : List SurveyResponse)
    (anns : List Annotation) :
    ∀ p ∈ destIssuesOf rs anns, p.2.low + p.2.med + p.2.high = p.2.count := by
  unfold destIssuesOf
  suffices h : ∀ (l : List SurveyResponse) (m : List (String × IssueCell)),
      (∀ p ∈ m, p.2.low + p.2.med + p.2.high = p.2.count) →
      ∀ p ∈ l.foldl
          (fun m r =>
            match annotFor anns r with
            | some a =>
              (a.tags.productTags ++ a.tags.coordinatorTags).foldl
                (fun m t => bumpIssue m t a.severity) m
            | none => m)
          m,
        p.2.low + p.2.med + p.2.high = p.2.count by
    exact fun p hp => h rs [] (by simp) p hp
  intro l
  induction l with
  | nil => intro m hm; simpa using hm
  | cons r rest ih =>
    intro m hm
    rw [List.foldl_cons]
    cases hfind : annotFor anns r with
    | none =>
      simp only [hfind]
      exact ih m hm
    | some a =>
      simp only [hfind]
      exact ih _ (foldl_bumpIssue_inv _ a.severity m hm)

/-- Claim C8, witness: the single aggregated cell of the witness data has
severity counts summing to its occurrence count. -/
theorem c8_severity_witness :
    pC8.2.low + pC8.2.med + pC8.2.high = pC8.2.count :=
  c8_severity_counts_sum_to_count rsC8 annsC8 pC8 (by decide)

/-- Claim C6: the impact aggregate returns exactly 0 for the empty action
set and the arithmetic mean of the per-action score and percentage deltas
for every non-empty set. -/
theorem c6_impact_aggregate_mean_or_zero :
    (totalAvgImprovement [] = 0 ∧ totalPctImprovement [] = 0) ∧
    ∀ acts : List CorrectiveAction, acts ≠ [] →
      totalAvgImprovement acts = (acts.map scoreDelta).sum / (acts.length : ℚ) ∧
      totalPctImprovement acts = (acts.map pctDelta).sum / (acts.length : ℚ) := by
  constructor
  · constructor <;> simp [totalAvgImprovement, totalPctImprovement]
  · intro acts hne
    constructor
    · unfold totalAvgImprovement
      rw [if_pos (List.length_pos.2 hne),
        foldl_add_eq_sum
          (fun a : CorrectiveAction =>
            a.impactMetrics.avgScoreAfter - a.impactMetrics.avgScoreBefore)
          acts 0,
        zero_add]
      rfl
    · unfold totalPctImprovement
      rw [if_pos (List.length_pos.2 hne),
        foldl_add_eq_sum
          (fun a : CorrectiveAction =>
            a.impactMetrics.pctBelow8Before - a.impactMetrics.pctBelow8After)
          acts 0,
        zero_add]
      rfl

/-- Claim C6, witness: a singleton action set receives the mean of its
per-action deltas, and the empty set receives 0. -/
theorem c6_impact_witness :
    totalAvgImprovement [actC6] =
      ([actC6].map scoreDelta).sum / (([actC6] : List CorrectiveAction).length : ℚ) ∧
    totalPctImprovement [] = 0 :=
  ⟨(c6_impact_aggregate_mean_or_zero.2 [actC6] (by simp)).1,
   c6_impact_aggregate_mean_or_zero.1.2⟩

/-- Claim C9: once the score-below-8 filter has been applied, every
destination with at least one qualifying response has a recomputed
percentage below threshold of exactly 100. -/
theorem c9_filtered_below8_pct_is_100 (env : Env) (rs : List SurveyResponse)
    (d : Destination) (h : destResponsesOf env (applyBelow8 rs) d ≠ []) :
    below8Of env (applyBelow8 rs) d = 100 := by
  have hall : ∀ r ∈ destResponsesOf env (applyBelow8 rs) d,
      decide (r.scores.overall < 8) = true := by
    intro r hr
    have hr2 : r ∈ applyBelow8 rs := (List.mem_filter.1 hr).1
    exact (List.mem_filter.1 hr2).2
  unfold below8Of
  rw [if_pos (List.length_pos.2 h), List.filter_eq_self.2 hall,
    div_self (Nat.cast_ne_zero.2 (List.length_pos.2 h).ne' : ((destResponsesOf env (applyBelow8 rs) d).length : ℚ) ≠ 0),
    one_mul]

/-- Claim C9, witness: with the threshold filter applied to a single
response scoring 5, its destination shows exactly 100 percent below 8. -/
theorem c9_filtered_witness :
    below8Of envC9 (applyBelow8 rsC9) dC9 = 100 :=
  c9_filtered_below8_pct_is_100 envC9 rsC9 dC9 (by
    simp [destResponsesOf, applyBelow8, destTourIds, destItineraryIds,
      envC9, rsC9, dC9, mkResponse, mkTour, List.filter])

/-- Claim C7: a destination with zero qualifying responses never appears
in the destination summaries, and every row that does appear carries the
mean of the overall scores of the responses mapped to its destination
through the tour to itinerary to destination chain. -/
theorem c7_dest_summary_exclusion_and_mean (env : Env)
    (anns : List Annotation) (rs : List SurveyResponse) (rand : Nat → ℚ) :
    (∀ d, destResponsesOf env rs d = [] →
      ∀ s ∈ destStats env anns rs rand, s.dest ≠ d) ∧
    (∀ s ∈ destStats env anns rs rand,
      destResponsesOf env rs s.dest ≠ [] ∧
      s.avg = ((destResponsesOf env rs s.dest).map (fun r => r.scores.overall)).sum /
        ((destResponsesOf env rs s.dest).length : ℚ)) := by
  constructor
  · intro d hd s hs heq
    obtain ⟨hpos, havg, _⟩ := destStats_mem_char env anns rs rand s hs
    rw [heq, avgOf_eq_zero_of_empty env rs d hd] at havg
    rw [havg] at hpos
    exact lt_irrefl 0 hpos
  · intro s hs
    obtain ⟨hpos, havg, _⟩ := destStats_mem_char env anns rs rand s hs
    have hne : destResponsesOf env rs s.dest ≠ [] := by
      intro hempty
      rw [avgOf_eq_zero_of_empty env rs s.dest hempty] at havg
      rw [havg] at hpos
      exact lt_irrefl 0 hpos
    exact ⟨hne, by rw [havg, avgOf_of_ne_empty env rs s.dest hne]⟩

/-- Claim C7, witness: on data where destination dB has no responses, the
only summary row belongs to dA and its avg is the mean of the mapped
overall scores. -/
theorem c7_dest_summary_witness :
    rowC7.dest ≠ dBC7 ∧
    rowC7.avg = ((destResponsesOf envC7 rsC7 rowC7.dest).map
        (fun r => r.scores.overall)).sum /
      ((destResponsesOf envC7 rsC7 rowC7.dest).length : ℚ) := by
  have h := c7_dest_summary_exclusion_and_mean envC7 [] rsC7 (fun _ => 1)
  have hmem : rowC7 ∈ destStats envC7 [] rsC7 (fun _ => 1) := by
    simp [destStats, destStatRows, destStatRow, avgOf, below8Of,
      destResponsesOf, destTourIds, destItineraryIds, topDestIssueOf,
      destIssuesOf, annotFor, sortByKey, insByKey, envC7, rsC7, rowC7,
      mkResponse, mkTour, List.filter]
    have h8 : decide ((9 : ℚ) < 8) = false := by norm_num
    simp only [h8]
    norm_num
  have hempty : destResponsesOf envC7 rsC7 dBC7 = [] := by decide
  exact ⟨h.1 dBC7 hempty rowC7 hmem, (h.2 rowC7 hmem).2⟩

/-- Claim C10: every destination whose computed mean overall score is not
strictly positive is absent from the destination summaries, even when it
has qualifying responses, because the output keeps only rows with avg
strictly above 0. -/
theorem c10_nonpositive_avg_excluded (env : Env) (anns : List Annotation)
    (rs : List SurveyResponse) (rand : Nat → ℚ) (d : Destination)
    (h : avgOf env rs d ≤ 0) :
    ∀ s ∈ destStats env anns rs rand, s.dest ≠ d := by
  intro s hs heq
  obtain ⟨hpos, havg, _⟩ := destStats_mem_char env anns rs rand s hs
  rw [heq] at havg
  rw [havg] at hpos
  exact absurd hpos (not_lt.2 h)

/-- Claim C10, witness: destination dZ has one qualifying response with
overall score 0, its mean is 0, and the only row of the summaries belongs
to the other destination. -/
theorem c10_nonpositive_witness : rowC10.dest ≠ dZC10 := by
  have havg : avgOf envC10 rsC10 dZC10 ≤ 0 := by
    simp [avgOf, destResponsesOf, destTourIds, destItineraryIds, envC10,
      rsC10, dZC10, mkResponse, mkTour, List.filter]
  have hmem : rowC10 ∈ destStats envC10 [] rsC10 (fun _ => 1) := by
    simp [destStats, destStatRows, destStatRow, avgOf, below8Of,
      destResponsesOf, destTourIds, destItineraryIds, topDestIssueOf,
      destIssuesOf, annotFor, sortByKey, insByKey, envC10, rsC10, rowC10,
      mkResponse, mkTour, List.filter]
    have h8 : decide ((9 : ℚ) < 8) = false := by norm_num
    simp only [h8]
    norm_num
  exact c10_nonpositive_avg_excluded envC10 [] rsC10 (fun _ => 1) dZC10 havg
    rowC10 hmem

/-- Claim C5, counterexample: a structurally complete form whose tour
count is 0 lies within the ranges the claim declares (tour counts not
below 0), yet the form rejects it, because the tour-count inputs require
at least 1. -/
theorem c5_zero_tour_count_rejected :
    fBadC5.toursAfterAction = some 0 ∧
    recordCorrectiveAction saC5 42 fBadC5 = Except.error "ValidationError" := by
  refine ⟨rfl, ?_⟩
  have hv : completeActionFormValid fBadC5 = false := by
    simp [completeActionFormValid, toursFieldOk, fBadC5]
  unfold recordCorrectiveAction
  rw [hv]
  simp

/-- Claim C5, amended: recording a corrective action fails with a
validation error exactly when the form is incomplete or breaks an input
constraint (scores 0 to 10 in steps of 0.1, whole-number percentages 0 to
100, tour counts at least 1); on every complete in-range form it succeeds
and the new record carries the id ca- followed by the creation timestamp,
distinct from every existing id when no existing action was created at
the same timestamp. -/
theorem c5_record_corrective_action_validation (sa : SuggestedAction)
    (now : Nat) (f : CompleteActionForm) (acts : List CorrectiveAction)
    (hfresh : ∀ a ∈ acts, a.id ≠ "ca-" ++ toString now) :
    (¬ FormCompleteInRange f →
      recordCorrectiveAction sa now f = Except.error "ValidationError") ∧
    (FormCompleteInRange f →
      recordCorrectiveAction sa now f =
        Except.ok (buildCorrectiveAction sa now f) ∧
      (buildCorrectiveAction sa now f).id = "ca-" ++ toString now ∧
      ∀ a ∈ acts, a.id ≠ (buildCorrectiveAction sa now f).id) := by
  constructor
  · intro hn
    unfold recordCorrectiveAction
    rw [if_neg (fun hv => hn ((completeActionFormValid_iff f).1 hv))]
  · intro hp
    refine ⟨?_, rfl, ?_⟩
    · unfold recordCorrectiveAction
      rw [if_pos ((completeActionFormValid_iff f).2 hp)]
    · intro a ha
      exact hfresh a ha

/-- Claim C5, witness: a complete in-range form is accepted and the new
record carries the timestamp-derived id. -/
theorem c5_validation_witness :
    recordCorrectiveAction saC5 42 fGoodC5 =
      Except.ok (buildCorrectiveAction saC5 42 fGoodC5) ∧
    (buildCorrectiveAction saC5 42 fGoodC5).id = "ca-" ++ toString 42 := by
  have hp : FormCompleteInRange fGoodC5 := by
    refine ⟨?_, ?_, ?_, ?_, ?_, ?_, ?_, ?_⟩ <;>
      simp [textPresent, scoreInRange, pctInRange, toursInRange, fGoodC5] <;>
      norm_num
  have h := (c5_record_corrective_action_validation saC5 42 fGoodC5 []
    (by simp)).2 hp
  exact ⟨h.1, h.2.1⟩

/-- Claim C1: the delta field of every destination summary row is the
placeholder (rand - 0.7) * 2 taken from the pseudo-random stream, not the
difference between the current and previous period means: on data whose
true period-over-period delta is minus 2, the code yields delta 0 when
rand is 0.7 and delta 3/5 when rand is 1, while the spec-side delta is
minus 2. -/
theorem c1_delta_ignores_previous_period :
    ((destStats envC1 [] rsC1 (fun _ => 7/10)).map (fun s => s.delta) = [0]) ∧
    ((destStats envC1 [] rsC1 (fun _ => 1)).map (fun s => s.delta) = [3/5]) ∧
    specDelta envC1 rsC1 dC1 1 = -2 := by
  refine ⟨?_, ?_, ?_⟩
  · norm_num [destStats, destStatRows, destStatRow, avgOf, below8Of,
      destResponsesOf, destTourIds, destItineraryIds, topDestIssueOf,
      destIssuesOf, annotFor, sortByKey, insByKey, envC1, rsC1, mkResponse,
      mkTour, List.filter]
  · norm_num [destStats, destStatRows, destStatRow, avgOf, below8Of,
      destResponsesOf, destTourIds, destItineraryIds, topDestIssueOf,
      destIssuesOf, annotFor, sortByKey, insByKey, envC1, rsC1, mkResponse,
      mkTour, List.filter]
  · simp [specDelta, periodAvg, periodResponses, tourPeriod, tourById,
      destResponsesOf, destTourIds, destItineraryIds, envC1, dC1, rsC1,
      mkResponse, mkTour, List.filter]
    norm_num
